import Mathlib

/-!
# Verification of the NAA reference-resolution pipeline (`amie/agents/naa.py`)

Shallow embedding of the pipeline's data model and operations, with proofs of
the specified properties.  Pure string manipulation is translated directly;
every external effect (HTTP fetches, LLM calls, storage uploads, the random
choice, the clock) is an explicit oracle argument, so the embedded functions
are total and executable.
-/

namespace Naa

/-! ## Python string primitives

All string operations are implemented by structural recursion over the
character list, so that every definition evaluates inside the kernel on
concrete inputs.  Semantics follow Python's `str` methods on the ASCII
data this pipeline handles. -/

/-- Whitespace characters recognised by Python's `str.strip` / `\s` for the
ASCII inputs this pipeline handles. -/
def pyWs (c : Char) : Bool :=
  c = ' ' ∨ c = '\t' ∨ c = '\n' ∨ c = '\r' ∨ c = '\x0b' ∨ c = '\x0c'

/-- Python `str.strip()`: drop leading and trailing whitespace. -/
def pyStrip (s : String) : String :=
  String.mk (((s.data.dropWhile pyWs).reverse.dropWhile pyWs).reverse)

/-- ASCII `str.lower()` on one character. -/
def charLower (c : Char) : Char :=
  if 65 ≤ c.toNat ∧ c.toNat ≤ 90 then Char.ofNat (c.toNat + 32) else c

/-- Python `str.lower()` (ASCII). -/
def pyLower (s : String) : String :=
  String.mk (s.data.map charLower)

/-- Collapse maximal whitespace runs to a single space, as
`re.sub(r"\s+", " ", s)` does; the flag records whether the previous
character was whitespace. -/
def collapseWsAux : Bool → List Char → List Char
  | _, [] => []
  | prevWs, c :: cs =>
    if pyWs c then
      if prevWs then collapseWsAux true cs else ' ' :: collapseWsAux true cs
    else c :: collapseWsAux false cs

/-- `re.sub(r"\s+", " ", s)`. -/
def collapseWs (s : String) : String :=
  String.mk (collapseWsAux false s.data)

/-- Match `pat` against the head of `l`; return the remainder on success. -/
def matchHead? : List Char → List Char → Option (List Char)
  | [], l => some l
  | _ :: _, [] => none
  | p :: ps, c :: cs => if c = p then matchHead? ps cs else none

/-- Substring occurrence over character lists (`pat` nonempty in all uses). -/
def listContains (pat : List Char) : List Char → Bool
  | [] => pat.isEmpty
  | c :: cs => (matchHead? pat (c :: cs)).isSome || listContains pat cs

/-- Python's `pat in s` substring test. -/
def strContains (s pat : String) : Bool :=
  listContains pat.data s.data

/-- Python `s.startswith(p)`. -/
def strStartsWith (s p : String) : Bool :=
  (matchHead? p.data s.data).isSome

/-- Python `s.endswith(p)`. -/
def strEndsWith (s p : String) : Bool :=
  (matchHead? p.data.reverse s.data.reverse).isSome

/-- The splitting loop of `str.split(sep)` for nonempty `sep`: scan left to
right, cutting at each non-overlapping occurrence.  `fuel` bounds the scan
(the wrapper passes the list length, which always suffices). -/
def splitOnFuel (sep : List Char) : Nat → List Char → List Char → List (List Char)
  | _, [], acc => [acc.reverse]
  | 0, l, acc => [acc.reverse ++ l]
  | fuel + 1, c :: cs, acc =>
    match matchHead? sep (c :: cs) with
    | some rest => acc.reverse :: splitOnFuel sep fuel rest []
    | none => splitOnFuel sep fuel cs (c :: acc)

/-- Python `s.split(sep)` for nonempty `sep`. -/
def splitOnStr (s sep : String) : List String :=
  if sep.data.isEmpty then [s]
  else (splitOnFuel sep.data s.data.length s.data []).map String.mk

/-- Python `s.split(sep, 1)[-1]`: everything after the first occurrence of
`sep`, or `s` itself when `sep` does not occur. -/
def afterFirst (s sep : String) : String :=
  match splitOnStr s sep with
  | [] => s
  | [_] => s
  | _ :: rest => String.intercalate sep rest

/-- Python `s.split(sep)[0]`: everything before the first occurrence. -/
def beforeFirst (s sep : String) : String :=
  match splitOnStr s sep with
  | [] => s
  | p :: _ => p

/-- Python `s.rsplit(sep, 1)[-1]`: everything after the last occurrence of
`sep`, or `s` when `sep` does not occur. -/
def afterLast (s sep : String) : String :=
  match splitOnStr s sep with
  | [] => s
  | ps => ps.getLastD s

/-- Python `s.strip("/")`. -/
def stripSlashes (s : String) : String :=
  String.mk (((s.data.dropWhile (· = '/')).reverse.dropWhile (· = '/')).reverse)

/-- Python `s.rstrip("/")`. -/
def rstripSlashes (s : String) : String :=
  String.mk ((s.data.reverse.dropWhile (· = '/')).reverse)

/-- The numeric value of a digit list. -/
def digitsVal (l : List Char) : Nat :=
  l.foldl (fun n c => n * 10 + (c.toNat - 48)) 0

/-- Python `int(s)` on the year strings this pipeline produces: optional sign
around a digit string, with surrounding whitespace allowed; anything else
raises (here: `none`). -/
def pyInt? (s : String) : Option Int :=
  let t := pyStrip s
  let core := if strStartsWith t "-" ∨ strStartsWith t "+" then
    String.mk (t.data.drop 1) else t
  if core.data ≠ [] ∧ core.data.all Char.isDigit then
    some (if strStartsWith t "-" then -(digitsVal core.data : Int)
          else (digitsVal core.data : Int))
  else none

/-! ## Utilities from `naa.py` -/

/-- `_normalize_title`: `re.sub(r"\s+", " ", (t or "").strip().lower())`. -/
def normalizeTitle (t : String) : String :=
  collapseWs (pyLower (pyStrip t))

/-- The path component of `urllib.parse.urlparse`, modelled for the
`http(s)://host/path` URLs this code feeds it: strip the fragment and query,
drop `scheme://netloc`, keep the leading-slash remainder. -/
def urlparsePath (s : String) : String :=
  let noFrag := beforeFirst s "#"
  let noQuery := beforeFirst noFrag "?"
  if strContains noQuery "://" then
    let rest := afterFirst noQuery "://"
    match splitOnStr rest "/" with
    | [] => ""
    | [_] => ""
    | _ :: ps => "/" ++ String.intercalate "/" ps
  else noQuery

/-- `_normalize_openalex_id`: accepts `https://openalex.org/W...`,
`openalex.org/W...` or a bare `W...` slug and returns the slug. -/
def normalizeOpenalexId (oid0 : String) : String :=
  let oid := pyStrip oid0
  if oid = "" then ""
  else if strStartsWith oid "http" then
    pyStrip (afterLast (urlparsePath oid) "/")
  else if strContains oid "openalex.org/" then
    pyStrip (afterLast oid "/")
  else oid

/-- `_strip_bracket_prefix`: remove a leading `[n]` index tag, then strip and
collapse whitespace. -/
def stripBracketTag (cite : String) : String :=
  collapseWs (pyStrip (String.mk (dropTag cite.data)))
where
  /-- `re.sub(r'^\s*\[\s*\d*\s*\]\s*', '', cite)`: drop the anchored match if
  the pattern matches at the start, otherwise leave the string unchanged. -/
  dropTag (l : List Char) : List Char :=
    let l1 := l.dropWhile pyWs
    match l1 with
    | '[' :: rest =>
      let r1 := (rest.dropWhile pyWs).dropWhile Char.isDigit |>.dropWhile pyWs
      match r1 with
      | ']' :: r2 => r2.dropWhile pyWs
      | _ => l
    | _ => l

/-- `_ensure_pdf_url`: convert common non-direct links into direct PDF links
(arXiv `/abs/` pages, missing `.pdf` suffixes); otherwise return the input. -/
def ensurePdfUrl (url : String) : String :=
  let u := pyStrip url
  if u = "" then ""
  else
    let lower := pyLower u
    if strEndsWith lower ".pdf" then u
    else if strContains lower "arxiv.org/abs/" then
      let tail := stripSlashes (beforeFirst (afterFirst u "/abs/") "?")
      "https://arxiv.org/pdf/" ++ tail ++ ".pdf"
    else if strContains lower "arxiv.org/pdf/" ∧ ¬ strEndsWith lower ".pdf" then
      rstripSlashes u ++ ".pdf"
    else u

/-- `_looks_like_pdf`: at least 10 bytes and the `%PDF-` magic. -/
def looksLikePdf (data : List Nat) : Bool :=
  if data.isEmpty ∨ data.length < 10 then false
  else data.take 5 = [37, 80, 68, 70, 45]

/-! ## Data model -/

/-- An OpenAlex work record as built by `_openalex_by_dois` /
`_openalex_search_title`.  A present value models a non-empty Python dict
(those constructors always populate every key); `Option Work` models
`work` possibly being `{}`. -/
structure Work where
  title : String := ""
  doi : String := ""
  url : String := ""
  pdf_url : String := ""
  year : String := ""
  openalex_id : String := ""
  cited_by_count : Int := 0
  cited_by_api_url : String := ""
deriving DecidableEq, Repr

/-- `item.get("openalex_work") or {}` followed by `.get(_, "")` accesses:
an absent work behaves as one with every field empty. -/
def wOr (o : Option Work) : Work := o.getD {}

/-- The Crossref metadata `_crossref_biblio` returns (`{}` modelled as the
all-empty record, which is access-equivalent). -/
structure CrossrefMeta where
  doi : String := ""
  title : String := ""
  url : String := ""
  pdf_url : String := ""
deriving DecidableEq, Repr

/-- A forward-citation record appended by `_openalex_fetch_cited_by`. -/
structure CitingWork where
  title : String := ""
  url : String := ""
  openalex_id : String := ""
  year : String := ""
deriving DecidableEq, Repr

/-- One entry of `resolved_results` as assembled in step 5 of `naa_node`. -/
structure RecordItem where
  label : String := ""
  reference_string : String := ""
  crossref : CrossrefMeta := {}
  openalex_work : Option Work := none
  cited_by : List CitingWork := []
deriving DecidableEq, Repr

/-- A harvested PDF candidate `{title, pdf_url, year}`. -/
structure Cand where
  title : String := ""
  pdf_url : String := ""
  year : String := ""
deriving DecidableEq, Repr

/-! ## Record field accessors shared by dedup and harvesting -/

/-- The normalized OpenAlex id of a record:
`_normalize_openalex_id((w.get("openalex_id") or "").strip())`. -/
def recOaId (item : RecordItem) : String :=
  normalizeOpenalexId (pyStrip (wOr item.openalex_work).openalex_id)

/-- The identifier of a record: `(cr.doi or w.doi or "").strip()`. -/
def recDoi (item : RecordItem) : String :=
  pyStrip (if item.crossref.doi ≠ "" then item.crossref.doi
           else (wOr item.openalex_work).doi)

/-- The `t|y` tail of the level-3 identity key: normalized title
(`cr.title or w.title`) joined with the stripped year. -/
def recTitleYear (item : RecordItem) : String :=
  normalizeTitle (if item.crossref.title ≠ "" then item.crossref.title
                  else (wOr item.openalex_work).title)
    ++ "|" ++ pyStrip (wOr item.openalex_work).year

/-! ## Deduplication (`_dedup_resolved`) -/

/-- The identity key `make_key` computes for one record: the normalized
OpenAlex id (lowercased) when present, else the DOI (Crossref's preferred
over OpenAlex's, stripped and lowercased), else normalized title plus
year. -/
def makeKey (item : RecordItem) : String :=
  if recOaId item ≠ "" then "oa:" ++ pyLower (recOaId item)
  else if pyLower (recDoi item) ≠ "" then "doi:" ++ pyLower (recDoi item)
  else "ty:" ++ recTitleYear item

/-- The loop of `_dedup_resolved`, with the `seen` set as a list of keys. -/
def dedupGo (seen : List String) : List RecordItem → List RecordItem
  | [] => []
  | x :: xs =>
    let key := makeKey x
    if key ≠ "" ∧ key ∉ seen then x :: dedupGo (key :: seen) xs
    else dedupGo seen xs

/-- `_dedup_resolved`: keep the first occurrence per identity key, in input
order. -/
def dedupResolved (results : List RecordItem) : List RecordItem :=
  dedupGo [] results

/-! ## PDF candidate harvesting -/

/-- `_http_head_or_get_for_pdf` is pure I/O; it is an oracle
`url → (final_url, content_type)`, with `("", none)` for unreachable. -/
abbrev HeadGet := String → String × Option String

/-- `_resolve_pdf_via_content_negotiation`: normalize a bare DOI to a
`doi.org` URL, follow negotiation, and accept the final URL only when the
declared type or URL suffix indicates a PDF. -/
def resolvePdfViaNegotiation (headGet : HeadGet) (doiOrUrl : String) : String :=
  if doiOrUrl = "" then ""
  else
    let target :=
      if ¬ strStartsWith (pyLower doiOrUrl) "http" then "https://doi.org/" ++ doiOrUrl
      else doiOrUrl
    let (finalUrl, ctype) := headGet target
    if finalUrl = "" then ""
    else
      let lower := pyLower (ctype.getD "")
      if strContains lower "pdf" ∨ strEndsWith (pyLower finalUrl) ".pdf" then finalUrl
      else ""

/-- Step (1) of `_candidate_from_record`: the open-access PDF URL already on
the record (`w.pdf_url or cr.pdf_url`, each stripped). -/
def recPdf0 (item : RecordItem) : String :=
  let p := pyStrip (wOr item.openalex_work).pdf_url
  if p ≠ "" then p else pyStrip item.crossref.pdf_url

/-- The landing URL used by steps (2) and (4): `w.url or cr.url`. -/
def recLanding (item : RecordItem) : String :=
  let l := pyStrip (wOr item.openalex_work).url
  if l ≠ "" then l else pyStrip item.crossref.url

/-- The candidate title: `w.title or cr.title` (each stripped), with
`"network_pdf"` as final fallback applied at construction. -/
def recTitle (item : RecordItem) : String :=
  let t := pyStrip (wOr item.openalex_work).title
  if t ≠ "" then t else pyStrip item.crossref.title

/-- `_candidate_from_record`, instrumented: also returns the list of
arguments on which content negotiation was attempted (there are none on the
first two steps).  The fallback chain stops at the first non-empty URL. -/
def candidateFromRecord (headGet : HeadGet) (item : RecordItem) :
    Option Cand × List String :=
  let title := recTitle item
  let year := pyStrip (wOr item.openalex_work).year
  let mk : String → Cand := fun pdf =>
    { title := if title ≠ "" then title else "network_pdf", pdf_url := pdf, year := year }
  let pdf0 := recPdf0 item
  if pdf0 ≠ "" then (some (mk pdf0), [])
  else
    let pdf1 := ensurePdfUrl (recLanding item)
    if pdf1 ≠ "" then (some (mk pdf1), [])
    else
      let pdf2 := resolvePdfViaNegotiation headGet (recDoi item)
      if pdf2 ≠ "" then (some (mk pdf2), [recDoi item])
      else
        let pdf3 := resolvePdfViaNegotiation headGet (recLanding item)
        (if pdf3 ≠ "" then some (mk pdf3) else none, [recDoi item, recLanding item])

/-- `_harvest_pdf_candidates`: collect candidates over the resolved
references, re-normalizing each candidate's URL. -/
def harvestPdfCandidates (headGet : HeadGet) (resolved : List RecordItem) :
    List Cand :=
  resolved.filterMap fun item =>
    ((candidateFromRecord headGet item).1).map fun c =>
      { c with pdf_url := ensurePdfUrl c.pdf_url }

/-! ## Step-7 candidate selection -/

/-- `_is_recent` from step 7: the year parses and lies within the last ten
years of the current year. -/
def isRecent (curYear : Int) (ystr : String) : Bool :=
  match pyInt? ystr with
  | some y => curYear - 10 ≤ y
  | none => false

/-- The pool preference: recent candidates when any, else the full pool. -/
def candidatePool (curYear : Int) (cands : List Cand) : List Cand :=
  let recent := cands.filter fun c => isRecent curYear c.year
  if recent ≠ [] then recent else cands

/-- `random.choice(pool)` with the drawn index supplied as an oracle:
selection from the preferred pool, `none` when the pool is empty. -/
def chooseCandidate (curYear : Int) (randIdx : Nat) (cands : List Cand) :
    Option Cand :=
  let pool := candidatePool curYear cands
  if h : pool = [] then none
  else some (pool.get ⟨randIdx % pool.length, Nat.mod_lt _ (List.length_pos.mpr h)⟩)

/-! ## Cited-by pagination (`_openalex_fetch_cited_by`) -/

/-- `MAX_CITEDBY_PAGES` — the hard safety cap. -/
def MAX_CITEDBY_PAGES : Nat := 50

/-- One page of the cursor-paginated cited-by response. -/
structure CitedPage where
  results : List CitingWork := []
  next_cursor : Option String := none
deriving DecidableEq, Repr

/-- The stop test `isinstance(expected_total, int) and expected_total > 0 and
len(out) >= expected_total`. -/
def expectedReached (expected : Option Int) (n : Nat) : Bool :=
  match expected with
  | some t => 0 < t ∧ t ≤ (n : Int)
  | none => false

/-- The `while True` loop of `_openalex_fetch_cited_by`.  The source breaks
when the incremented page counter exceeds `MAX_CITEDBY_PAGES`; here `fuel`
counts the pages still allowed (`fuel = MAX_CITEDBY_PAGES - pages`), and
`resp n` is the response to the `n`-th request of this reference (each
cursor sequence determines such a function).  Returns the accumulated items
and the number of pages fetched. -/
def citedByAux (resp : Nat → CitedPage) (expected : Option Int) :
    Nat → Nat → List CitingWork → List CitingWork × Nat
  | 0, pages, out => (out, pages)
  | fuel + 1, pages, out =>
    let js := resp (pages + 1)
    let out2 := out ++ js.results
    if expectedReached expected out2.length then (out2, pages + 1)
    else
      match js.next_cursor with
      | none => (out2, pages + 1)
      | some _ => citedByAux resp expected fuel (pages + 1) out2

/-- `_openalex_fetch_cited_by` for one reference. -/
def fetchCitedBy (resp : Nat → CitedPage) (expected : Option Int) :
    List CitingWork × Nat :=
  citedByAux resp expected MAX_CITEDBY_PAGES 0 []

/-! ## Validated download (`_download_pdf_validated`) -/

/-- The terminal HTTP response of `requests.get(..., allow_redirects=True)`. -/
structure HttpResp where
  status : Nat := 200
  body : List Nat := []
  ctype : String := ""
  finalUrl : String := ""
deriving DecidableEq, Repr

/-- The status/content validation of `_download_pdf_validated` on the
received response: `raise_for_status()` on an HTTP error status, then reject
unless the lowercased content type mentions `pdf` or the payload carries the
PDF magic. -/
def validateDownload (resp : HttpResp) : Except String (List Nat × String × String) :=
  if 400 ≤ resp.status then .error "http_error"
  else
    let data := resp.body
    let ctype := pyLower resp.ctype
    if ¬ strContains ctype "pdf" ∧ ¬ looksLikePdf data then
      .error "Downloaded content is not a valid PDF."
    else .ok (data, resp.finalUrl, ctype)

/-- `_download_pdf_validated`: normalize the URL, fetch it (the fetch is an
oracle; `none` models a raised transport error), validate the response. -/
def downloadPdfValidated (fetch : String → Option HttpResp) (url : String) :
    Except String (List Nat × String × String) :=
  let u := ensurePdfUrl url
  match fetch u with
  | none => .error "request_exception"
  | some resp => validateDownload resp

/-! ## `naa_node`: state, config and oracles -/

/-- A JSON array element as returned by the structured-generation calls;
only strings survive the `isinstance(s, str)` filters. -/
inductive JVal
  | jstr (s : String)
  | jother
deriving DecidableEq, Repr

/-- `[s for s in l if isinstance(s, str) and s.strip()]`. -/
def filterStrs (l : List JVal) : List String :=
  l.filterMap fun v =>
    match v with
    | .jstr s => if pyStrip s ≠ "" then some s else none
    | .jother => none

/-- The parsed step-3 ranking object (`{"baseline_top2": [...]}`). -/
structure BaselineObj where
  baseline_top2 : List JVal := []
deriving DecidableEq, Repr

/-- The parsed step-4 ranking object (`{"innovation_top2": [...]}`). -/
structure InnovObj where
  innovation_top2 : List JVal := []
deriving DecidableEq, Repr

/-- The `artifacts.idca` entry of the upstream state. -/
structure IdcaArt where
  summary : String := ""
  doc_gcs_uri : String := ""
deriving DecidableEq, Repr

/-- The slice of `GraphState` that `naa_node` reads (missing dict entries
modelled as empty values). -/
structure StateM where
  idcaStatus : String := ""
  idca : IdcaArt := {}
  doc_gcs_uri : String := ""
deriving DecidableEq, Repr

/-- The override candidate `naa_step7_override_pdf` from the config. -/
structure OverridePdf where
  title : String := ""
  pdf_url : String := ""
deriving DecidableEq, Repr

/-- The `configurable` dict of the config (`none` at the call site models a
missing or empty dict). -/
structure Config where
  hasClient : Bool := true
  naa_step7_remote : Bool := false
  naa_step7_override_pdf : Option OverridePdf := none
deriving DecidableEq, Repr

/-- Every external effect of `naa_node`, supplied as an oracle.  `Except`
errors model raised exceptions (carrying the message text). -/
structure Oracle where
  /-- `_now_iso()`. -/
  now : String := ""
  /-- `datetime.now(timezone.utc).year` in step 7. -/
  curYear : Int := 2026
  /-- Step 1: LLM extraction of the raw reference array. -/
  step1 : Except String (List JVal) := .ok []
  /-- Step 2: a raised exception in the Crossref sweep, if any. -/
  crossrefExc : Option String := none
  /-- Step 2: `_crossref_biblio` per reference string. -/
  crossref : String → CrossrefMeta := fun _ => {}
  /-- Step 3: the baseline ranking call. -/
  baseline : Except String BaselineObj := .ok {}
  /-- Step 4: the innovation ranking call. -/
  innovation : Except String InnovObj := .ok {}
  /-- Step 5: whether the per-reference resolve raised (caught; `work = {}`). -/
  step5Exc : String → Bool := fun _ => false
  /-- Step 5: head of `_openalex_by_dois([doi])`. -/
  byDoi : String → Option Work := fun _ => none
  /-- Step 5: `_openalex_search_title`. -/
  byTitle : String → Option Work := fun _ => none
  /-- Step 6: the page responses per OpenAlex slug and request index. -/
  citedPage : String → Nat → CitedPage := fun _ _ => {}
  /-- Step 6: whether the cited-by fetch raised for a slug (caught; `[]`). -/
  citedExc : String → Bool := fun _ => false
  /-- Steps 7(3)/(4): `_http_head_or_get_for_pdf`. -/
  headGet : HeadGet := fun _ => ("", none)
  /-- Step 7: the index drawn by `random.choice`. -/
  randIdx : Nat := 0
  /-- Step 7: the terminal response of the candidate download (`none` for a
  raised transport error). -/
  fetchPdf : String → Option HttpResp := fun _ => none
  /-- Step 7: a raised GCS upload exception, if any. -/
  uploadExc : Option String := none
  /-- Step 7: the truncated sha1 hex of the candidate URL. -/
  hashHex : String → String := fun _ => ""
  /-- Step 7 (REMOTE): the comparison call, returning `(same, new)`. -/
  compareRemote : Except String (List String × List String) := .error ""
  /-- Step 7 (GCS): the comparison call, returning `(same, new)`. -/
  compareGcs : Except String (List String × List String) := .error ""

/-! ## `naa_node`: result shapes -/

/-- The step-7 comparison object after `naa_node` overwrites the
network-title/url/gcs fields. -/
structure CompareObj where
  network_title : String := ""
  network_pdf_url : String := ""
  network_pdf_gcs : String := ""
  same : List String := []
  new : List String := []
deriving DecidableEq, Repr

/-- `step7_result`: either the initial/degraded `{"status": "unclear", ...}`
dict (with its optional keys) or a completed comparison. -/
inductive Step7Result
  | unclear (reason : Option String) (network_pdf_url : Option String)
      (network_pdf_gcs : Option String)
  | compared (c : CompareObj)
deriving DecidableEq, Repr

/-- The `artifacts.naa` dict.  `temp_step7` is `none` on the failure shape
(the key is absent there). -/
structure NaaArt where
  core_subject : String := ""
  reference_urls : List RecordItem := []
  top2_cited_by : List String := []
  input_summary : String := ""
  doc_gcs_uri : String := ""
  generated_at : String := ""
  temp_step7 : Option Step7Result := none
deriving DecidableEq, Repr

/-- The extra keys `_fail` merges into the failure internals. -/
structure FailNote where
  stage : String := ""
  whereTag : String := ""
  rankB : Option BaselineObj := none
  rankI : Option InnovObj := none
deriving DecidableEq, Repr

/-- The observability counts of the success internals. -/
structure Counts where
  refs_total : Nat := 0
  dois_resolved : Nat := 0
  baseline_top2 : Nat := 0
  innovation_top2 : Nat := 0
  openalex_resolved_ok : Nat := 0
  unique_after_dedup : Nat := 0
deriving DecidableEq, Repr

/-- The `internals.naa` dict: `{"error": ...}` plus notes on failure, the
log line plus counts on success. -/
inductive NaaInternals
  | failed (error : String) (note : Option FailNote)
  | finished (log : String) (counts : Counts)
deriving DecidableEq, Repr

/-- The dict `naa_node` returns. -/
structure NaaResult where
  artifacts : NaaArt
  internals : NaaInternals
  status : String
  message : String
deriving DecidableEq, Repr

/-! ## `naa_node`: the pipeline -/

/-- The document URI resolution shared by `_fail` and the main path:
`idca.doc_gcs_uri or state.doc_gcs_uri`. -/
def tarOf (st : StateM) : String :=
  if st.idca.doc_gcs_uri ≠ "" then st.idca.doc_gcs_uri else st.doc_gcs_uri

/-- `_fail`: the early-exit FAILED result, with a fully shaped but empty
artifact and the error message in the internals. -/
def failR (msg : String) (st : StateM) (note : Option FailNote) (now : String) :
    NaaResult :=
  { artifacts :=
      { core_subject := ""
        reference_urls := []
        top2_cited_by := []
        input_summary := st.idca.summary
        doc_gcs_uri := tarOf st
        generated_at := now
        temp_step7 := none }
    internals := .failed msg note
    status := "FAILED"
    message := msg }

/-- Step 1 post-processing: keep non-empty strings, strip index tags. -/
def refsOf (refsRaw : List JVal) : List String :=
  (filterStrs refsRaw).map stripBracketTag

/-- The `ref2meta` dict lookup: keys are stripped reference strings, later
entries overwrite earlier ones; a miss yields the empty metadata. -/
def ref2meta (refs : List String) (crossref : String → CrossrefMeta)
    (key : String) : CrossrefMeta :=
  match refs.reverse.find? (fun r => pyStrip r = key) with
  | some r => crossref r
  | none => {}

/-- Step 5: resolve one selected reference to a `RecordItem`. -/
def resolveOne (o : Oracle) (refs : List String) (label refStr : String) :
    RecordItem :=
  let meta := ref2meta refs o.crossref (pyStrip refStr)
  let doi := meta.doi
  let title := if meta.title ≠ "" then meta.title else refStr
  let work : Option Work :=
    if o.step5Exc refStr then none
    else
      let w0 := if doi ≠ "" then o.byDoi doi else none
      match w0 with
      | some w => some w
      | none => o.byTitle title
  { label := label
    reference_string := refStr
    crossref := { title := meta.title, doi := doi, url := meta.url, pdf_url := meta.pdf_url }
    openalex_work := work
    cited_by := [] }

/-- Step 5: resolve the four selected references, baselines first. -/
def step5Resolve (o : Oracle) (refs b2 i2 : List String) : List RecordItem :=
  b2.map (resolveOne o refs "baseline") ++ i2.map (resolveOne o refs "innovation")

/-- The `resolved_ok` count: records whose work has an id or a URL. -/
def resolvedOkCount (rs : List RecordItem) : Nat :=
  (rs.filter fun it =>
    (wOr it.openalex_work).openalex_id ≠ "" ∨ (wOr it.openalex_work).url ≠ "").length

/-- Step 6: fetch the forward citations of one record (exceptions are
caught and yield `[]`; an empty slug is skipped). -/
def step6One (o : Oracle) (item : RecordItem) : RecordItem :=
  let w := wOr item.openalex_work
  let slug := normalizeOpenalexId w.openalex_id
  let cb : List CitingWork :=
    if slug ≠ "" then
      if o.citedExc slug then []
      else (fetchCitedBy (o.citedPage slug) ((item.openalex_work).map (·.cited_by_count))).1
    else []
  { item with cited_by := cb }

/-- Step 6 over the deduplicated records. -/
def step6Enrich (o : Oracle) (rs : List RecordItem) : List RecordItem :=
  rs.map (step6One o)

/-- Step 7 candidate choice: the configured override, else a random draw
from the recency-preferred harvested pool. -/
def step7Choose (cfg : Config) (o : Oracle) (rs : List RecordItem) : Option Cand :=
  match cfg.naa_step7_override_pdf with
  | some ov =>
    let t := pyStrip ov.title
    some { title := if t ≠ "" then t else "network_pdf"
           pdf_url := ensurePdfUrl (pyStrip ov.pdf_url)
           year := "" }
  | none => chooseCandidate o.curYear o.randIdx (harvestPdfCandidates o.headGet rs)

/-- The GCS object path for the uploaded candidate. -/
def gcsObjectPath (o : Oracle) (url : String) : String :=
  "amie/pdf/netpdf_" ++ o.now ++ "_" ++ o.hashHex url ++ ".pdf"

/-- The GCS URI of the uploaded candidate. -/
def gcsUriOf (o : Oracle) (url : String) : String :=
  "gs://aime-hello-world-amie-uswest1/" ++ gcsObjectPath o url

/-- Step 7: compute `step7_result` (REMOTE or GCS mode).  Every failure in
this step is caught and degrades the result; none fails the pipeline. -/
def step7Compute (cfg : Config) (o : Oracle) (rs : List RecordItem) : Step7Result :=
  match step7Choose cfg o rs with
  | none => .unclear none none none
  | some c =>
    if cfg.naa_step7_remote then
      match o.compareRemote with
      | .ok (same, crNew) =>
        .compared { network_title := c.title, network_pdf_url := c.pdf_url
                    network_pdf_gcs := "", same := same, new := crNew }
      | .error e =>
        .unclear (some ("llm_error_remote: " ++ e)) (some c.pdf_url) (some "")
    else
      match downloadPdfValidated o.fetchPdf c.pdf_url with
      | .error e => .unclear (some ("download_error: " ++ e)) none none
      | .ok (data, _, _) =>
        -- `if pdf_bytes:` — an empty validated payload skips upload and compare
        if data.isEmpty then .unclear none none none
        else
        match o.uploadExc with
        | some e => .unclear (some ("gcs_upload_error: " ++ e)) none none
        | none =>
          let gcsUri := gcsUriOf o c.pdf_url
          match o.compareGcs with
          | .ok (same, crNew) =>
            .compared { network_title := c.title, network_pdf_url := ""
                        network_pdf_gcs := gcsUri, same := same, new := crNew }
          | .error e =>
            .unclear (some ("llm_error_gcs: " ++ e)) (some "") (some gcsUri)

/-- The steps after the step-4 check: OpenAlex resolution, dedup, cited-by
expansion, step-7 comparison and the success assembly.  No `_fail` return
exists past step 4 in the source. -/
def successPart (st : StateM) (cfg : Config) (o : Oracle)
    (refs b2 i2 : List String) : NaaResult :=
  let rs0 := step5Resolve o refs b2 i2
  let resolvedOk := resolvedOkCount rs0
  let rs := dedupResolved rs0
  let rs6 := step6Enrich o rs
  let s7 := step7Compute cfg o rs6
  { artifacts :=
      { core_subject := ""
        reference_urls := rs6
        top2_cited_by := []
        input_summary := st.idca.summary
        doc_gcs_uri := tarOf st
        generated_at := o.now
        temp_step7 := some s7 }
    internals := .finished
      ("completed: refs to crossref to baseline_llm to innovation_llm to openalex_resolve(dedup) to openalex_citedby(cites-filter) to step7_compare("
        ++ (if cfg.naa_step7_remote then "REMOTE" else "GCS") ++ ")")
      { refs_total := refs.length
        dois_resolved := (refs.filter fun r => (o.crossref r).doi ≠ "").length
        baseline_top2 := b2.length
        innovation_top2 := i2.length
        openalex_resolved_ok := resolvedOk
        unique_after_dedup := rs6.length }
    status := "FINISHED"
    message := "NAA: refs resolved (deduped), cited-by via cites-filter, and Step 7 comparison completed (REMOTE or GCS mode)" }

/-- `naa_node`: the full pipeline over explicit oracles, mirroring the
source's early-exit chain. -/
def naa_node (st : StateM) (config : Option Config) (o : Oracle) : NaaResult :=
  if st.idcaStatus ≠ "FINISHED" then
    failR "[NAA] Upstream not finished" st none o.now
  else if tarOf st = "" then
    failR "[NAA] No invention PDF found (idca.doc_gcs_uri)." st
      (some { whereTag := "precheck" }) o.now
  else
    match config with
    | none => failR "[NAA] No config found" st (some { whereTag := "precheck" }) o.now
    | some cfg =>
      if ¬ cfg.hasClient then
        failR "[NAA] No genai client found" st (some { whereTag := "precheck" }) o.now
      else
        match o.step1 with
        | .error e =>
          failR ("[NAA] step 1 LLM failed: " ++ e) st (some { stage := "step1" }) o.now
        | .ok refsRaw =>
          let refs := refsOf refsRaw
          if refs = [] then
            failR "[NAA] step 1 produced empty reference list" st
              (some { stage := "step1" }) o.now
          else
            match o.crossrefExc with
            | some e =>
              failR ("[NAA] step 2 Crossref failed: " ++ e) st
                (some { stage := "step2" }) o.now
            | none =>
              match o.baseline with
              | .error e =>
                failR ("[NAA] step 3 baseline ranking LLM failed: " ++ e) st
                  (some { stage := "step3" }) o.now
              | .ok bobj =>
                let b2 := filterStrs bobj.baseline_top2
                if b2.length ≠ 2 then
                  failR "[NAA] step 3 did not return exactly two baseline items" st
                    (some { stage := "step3", rankB := some bobj }) o.now
                else
                  match o.innovation with
                  | .error e =>
                    failR ("[NAA] step 4 innovation ranking LLM failed: " ++ e) st
                      (some { stage := "step4" }) o.now
                  | .ok iobj =>
                    let i2 := filterStrs iobj.innovation_top2
                    if i2.length ≠ 2 then
                      failR "[NAA] step 4 did not return exactly two innovation items" st
                        (some { stage := "step4", rankI := some iobj }) o.now
                    else
                      successPart st cfg o refs b2 i2

/-! ## Concrete instances used by witnesses and counterexamples -/

/-- A pair of records sharing a (case-insensitively equal) DOI key. -/
def c5recA : RecordItem := { label := "baseline", crossref := { doi := "10.1/X" } }

/-- A second record with the same identity key as `c5recA`. -/
def c5recB : RecordItem := { label := "innovation", crossref := { doi := "10.1/x" } }

/-- A record identified only by OpenAlex id. -/
def c1recA : RecordItem := { openalex_work := some { openalex_id := "W7" } }

/-- A record with the same OpenAlex id in URL form and an unrelated DOI. -/
def c1recB : RecordItem :=
  { openalex_work := some { openalex_id := "https://openalex.org/w7" },
    crossref := { doi := "10.9/other" } }

/-- A record with no OpenAlex id but a DOI. -/
def c1recC : RecordItem := { crossref := { doi := "10.9/other" } }

/-- A resolved record whose only URL is an arXiv abstract page. -/
def c7item : RecordItem :=
  { openalex_work := some { title := "T", url := "https://arxiv.org/abs/2101.00001",
                            year := "2021" } }

/-- A content-negotiation oracle that never reaches a PDF. -/
def c7headGet : HeadGet := fun _ => ("", none)

/-- An upstream state whose classification stage finished. -/
def c2st : StateM :=
  { idcaStatus := "FINISHED", idca := { summary := "s", doc_gcs_uri := "gs://x/d.pdf" } }

/-- A plain config: GCS mode, no override. -/
def c2cfg : Config := {}

/-- An oracle whose ranking calls return strings absent from the reference
list; every later lookup misses. -/
def c2o : Oracle :=
  { step1 := .ok [.jstr "a"]
    baseline := .ok { baseline_top2 := [.jstr "x", .jstr "y"] }
    innovation := .ok { innovation_top2 := [.jstr "p", .jstr "q"] } }

/-- An upstream state whose classification stage finished. -/
def c3st : StateM :=
  { idcaStatus := "FINISHED", idca := { summary := "s", doc_gcs_uri := "gs://x/d.pdf" } }

/-- A config whose override supplies the comparison candidate (GCS mode). -/
def c3cfg : Config :=
  { naa_step7_override_pdf := some { title := "t", pdf_url := "http://x/p.pdf" } }

/-- An oracle whose candidate download answers with an HTML payload. -/
def c3o : Oracle :=
  { step1 := .ok [.jstr "a"]
    baseline := .ok { baseline_top2 := [.jstr "a", .jstr "a"] }
    innovation := .ok { innovation_top2 := [.jstr "a", .jstr "a"] }
    fetchPdf := fun _ =>
      some { status := 200, body := [104, 105], ctype := "text/html",
             finalUrl := "http://x/p.pdf" } }

/-- An upstream state whose classification stage finished. -/
def c4st : StateM :=
  { idcaStatus := "FINISHED", idca := { summary := "s", doc_gcs_uri := "gs://x/d.pdf" } }

/-- A plain config: GCS mode, no override. -/
def c4cfg : Config := {}

/-- An oracle under which every resolution misses, so harvesting finds no
usable URL. -/
def c4o : Oracle :=
  { step1 := .ok [.jstr "a"]
    baseline := .ok { baseline_top2 := [.jstr "a", .jstr "a"] }
    innovation := .ok { innovation_top2 := [.jstr "a", .jstr "a"] } }

/-- An upstream state whose classification stage did not finish. -/
def c9st : StateM := { idcaStatus := "RUNNING" }

/-- The items of pages `start+1 .. start+n` of a cited-by response
sequence, concatenated. -/
def pageJoinFrom (resp : Nat → CitedPage) : Nat → Nat → List CitingWork
  | _, 0 => []
  | start, fuel + 1 => (resp (start + 1)).results ++ pageJoinFrom resp (start + 1) fuel

/-! ## Lemmas about `_looks_like_pdf` and the download validator -/

theorem except_isOk_error {ε α : Type} (e : ε) :
    (Except.error e : Except ε α).isOk = false := rfl

theorem except_isOk_ok {ε α : Type} (v : α) :
    (Except.ok v : Except ε α).isOk = true := rfl

theorem looksLikePdf_iff (data : List Nat) :
    looksLikePdf data = true ↔
      10 ≤ data.length ∧ data.take 5 = [37, 80, 68, 70, 45] := by
  unfold looksLikePdf
  split_ifs with h
  · simp only [Bool.false_eq_true, false_iff, not_and]
    intro hlen
    rcases h with h1 | h2
    · rw [List.isEmpty_iff] at h1; subst h1; simp at hlen
    · omega
  · rw [not_or] at h
    constructor
    · intro ht
      exact ⟨by omega, by simpa using ht⟩
    · intro h2
      simpa using h2.2

/-- A successful `random.choice` draw always lies in the preferred pool. -/
theorem chooseCandidate_mem_pool (curYear : Int) (randIdx : Nat)
    (cands : List Cand) (c : Cand)
    (h : chooseCandidate curYear randIdx cands = some c) :
    c ∈ candidatePool curYear cands := by
  unfold chooseCandidate at h
  dsimp only at h
  split at h
  · exact absurd h (by simp)
  · injection h with h2
    rw [← h2]
    exact List.get_mem _ _ _

/-! ## Lemmas about the identity key -/

theorem makeKey_ne_empty (item : RecordItem) : makeKey item ≠ "" := by
  unfold makeKey
  split_ifs <;> intro h <;>
    (have h2 := congrArg String.data h; simp [String.data_append] at h2)

theorem makeKey_oa_of (item : RecordItem) (h : recOaId item ≠ "") :
    makeKey item = "oa:" ++ pyLower (recOaId item) := by
  unfold makeKey; rw [if_pos h]

theorem pyLower_eq_empty (s : String) : pyLower s = "" ↔ s = "" := by
  cases s with
  | mk data =>
    cases data with
    | nil => simp [pyLower]
    | cons c cs =>
      constructor
      · intro h
        have h2 := congrArg String.data h
        simp [pyLower] at h2
      · intro h
        exact absurd (congrArg String.data h) (by simp)

theorem makeKey_doi_of (item : RecordItem) (h : recOaId item = "")
    (h2 : recDoi item ≠ "") :
    makeKey item = "doi:" ++ pyLower (recDoi item) := by
  unfold makeKey
  rw [if_neg (by simp [h]), if_pos (by simp [pyLower_eq_empty, h2])]

theorem makeKey_ty_of (item : RecordItem) (h : recOaId item = "")
    (h2 : recDoi item = "") :
    makeKey item = "ty:" ++ recTitleYear item := by
  unfold makeKey
  rw [if_neg (by simp [h]), if_neg (by simp [pyLower_eq_empty, h2])]

theorem tag_append_inj (p a b : String) (h : p ++ a = p ++ b) : a = b := by
  have h2 := congrArg String.data h
  simp only [String.data_append, List.append_cancel_left_eq] at h2
  exact String.ext h2

theorem oa_ne_doi (a b : String) : "oa:" ++ a ≠ "doi:" ++ b := by
  intro h
  have h2 := congrArg String.data h
  simp [String.data_append] at h2

theorem oa_ne_ty (a b : String) : "oa:" ++ a ≠ "ty:" ++ b := by
  intro h
  have h2 := congrArg String.data h
  simp [String.data_append] at h2

theorem doi_ne_ty (a b : String) : "doi:" ++ a ≠ "ty:" ++ b := by
  intro h
  have h2 := congrArg String.data h
  simp [String.data_append] at h2

/-! ## Lemmas about `_dedup_resolved` -/

theorem dedupGo_sublist (l : List RecordItem) :
    ∀ seen, (dedupGo seen l).Sublist l := by
  induction l with
  | nil => intro seen; simp [dedupGo]
  | cons x xs ih =>
    intro seen
    simp only [dedupGo]
    split
    · exact (ih _).cons₂ x
    · exact (ih _).cons x

theorem dedupGo_idem (l : List RecordItem) :
    ∀ seen, dedupGo seen (dedupGo seen l) = dedupGo seen l := by
  induction l with
  | nil => intro seen; simp [dedupGo]
  | cons x xs ih =>
    intro seen
    simp only [dedupGo]
    split
    · rename_i hc
      simp only [dedupGo, if_pos hc]
      rw [ih (makeKey x :: seen)]
    · exact ih seen

theorem dedupGo_first (l : List RecordItem) :
    ∀ seen x, x ∈ dedupGo seen l →
      makeKey x ∉ seen ∧ l.find? (fun z => makeKey z == makeKey x) = some x := by
  induction l with
  | nil => intro seen x hx; simp [dedupGo] at hx
  | cons z zs ih =>
    intro seen x hx
    simp only [dedupGo] at hx
    by_cases hc : makeKey z ≠ "" ∧ makeKey z ∉ seen
    · rw [if_pos hc] at hx
      rcases List.mem_cons.mp hx with rfl | hx2
      · exact ⟨hc.2, List.find?_cons_of_pos _ (by simp)⟩
      · obtain ⟨hseen, hfind⟩ := ih _ x hx2
        have hne : makeKey z ≠ makeKey x := by
          intro he; exact hseen (by simp [he.symm])
        refine ⟨fun hmem => hseen (by simp [hmem]), ?_⟩
        rw [List.find?_cons_of_neg _ (by simpa using hne)]
        exact hfind
    · rw [if_neg hc] at hx
      obtain ⟨hseen, hfind⟩ := ih _ x hx
      have hz : makeKey z ∈ seen := by
        rcases not_and_or.mp hc with h1 | h2
        · exact absurd (not_not.mp (by simpa using h1)) (makeKey_ne_empty z)
        · exact not_not.mp h2
      have hne : makeKey z ≠ makeKey x := fun he => hseen (he ▸ hz)
      refine ⟨hseen, ?_⟩
      rw [List.find?_cons_of_neg _ (by simpa using hne)]
      exact hfind

theorem dedupGo_keys_nodup (l : List RecordItem) :
    ∀ seen, ((dedupGo seen l).map makeKey).Nodup ∧
      ∀ k ∈ (dedupGo seen l).map makeKey, k ∉ seen := by
  induction l with
  | nil => intro seen; simp [dedupGo]
  | cons x xs ih =>
    intro seen
    simp only [dedupGo]
    split
    · rename_i hc
      obtain ⟨hnd, hfresh⟩ := ih (makeKey x :: seen)
      constructor
      · simp only [List.map_cons, List.nodup_cons]
        exact ⟨fun hmem => (hfresh _ hmem) (by simp), hnd⟩
      · intro k hk
        simp only [List.map_cons, List.mem_cons] at hk
        rcases hk with rfl | hk2
        · exact hc.2
        · exact fun hs => (hfresh _ hk2) (by simp [hs])
    · rename_i hc
      obtain ⟨hnd, hfresh⟩ := ih seen
      exact ⟨hnd, hfresh⟩

theorem dedupGo_repr (l : List RecordItem) :
    ∀ seen x, x ∈ l → makeKey x ∉ seen →
      ∃ y ∈ dedupGo seen l, makeKey y = makeKey x := by
  induction l with
  | nil => intro seen x hx; simp at hx
  | cons z zs ih =>
    intro seen x hx hfresh
    simp only [dedupGo]
    by_cases hc : makeKey z ≠ "" ∧ makeKey z ∉ seen
    · rw [if_pos hc]
      by_cases he : makeKey x = makeKey z
      · exact ⟨z, by simp, he.symm⟩
      · rcases List.mem_cons.mp hx with rfl | hx2
        · exact absurd rfl he
        · obtain ⟨y, hy, hky⟩ := ih (makeKey z :: seen) x hx2
            (by simp [he, hfresh])
          exact ⟨y, by simp [hy], hky⟩
    · rw [if_neg hc]
      have hz : makeKey z ∈ seen := by
        rcases not_and_or.mp hc with h1 | h2
        · exact absurd (not_not.mp (by simpa using h1)) (makeKey_ne_empty z)
        · exact not_not.mp h2
      rcases List.mem_cons.mp hx with rfl | hx2
      · exact absurd hz hfresh
      · exact ih seen x hx2 hfresh

/-- Two records are collapsed by `_dedup_resolved` exactly when their
identity keys agree. -/
theorem dedup_pair (a b : RecordItem) :
    dedupResolved [a, b] = [a] ↔ makeKey a = makeKey b := by
  unfold dedupResolved
  simp only [dedupGo]
  rw [if_pos ⟨makeKey_ne_empty a, by simp⟩]
  by_cases he : makeKey b = makeKey a
  · rw [if_neg (by simp [he])]
    simp [he]
  · rw [if_pos ⟨makeKey_ne_empty b, by simp [he]⟩]
    constructor
    · intro h; simp at h
    · intro h; exact absurd h.symm he

/-! ## Claim C5 -/

/-- C5: `_dedup_resolved` is idempotent, and the output is the
order-preserving subsequence of the input that keeps, in original order, the
first occurrence per unique identity key (`find?` over the input returns the
kept element itself), carries pairwise distinct keys, and retains a
representative for every input element's key. -/
theorem c5_dedup_idempotent_first_occurrence (l : List RecordItem) :
    dedupResolved (dedupResolved l) = dedupResolved l ∧
    (dedupResolved l).Sublist l ∧
    (∀ x ∈ dedupResolved l,
      l.find? (fun z => makeKey z == makeKey x) = some x) ∧
    ((dedupResolved l).map makeKey).Nodup ∧
    (∀ x ∈ l, ∃ y ∈ dedupResolved l, makeKey y = makeKey x) := by
  refine ⟨dedupGo_idem l [], dedupGo_sublist l [], ?_,
    (dedupGo_keys_nodup l []).1, ?_⟩
  · intro x hx; exact (dedupGo_first l [] x hx).2
  · intro x hx; exact dedupGo_repr l [] x hx (by simp)

theorem c5_witness :
    dedupResolved (dedupResolved [c5recA, c5recB]) = dedupResolved [c5recA, c5recB] ∧
    [c5recA, c5recB].find? (fun z => makeKey z == makeKey c5recA) = some c5recA ∧
    (∃ y ∈ dedupResolved [c5recA, c5recB], makeKey y = makeKey c5recB) := by
  obtain ⟨h1, _, h3, _, h5⟩ := c5_dedup_idempotent_first_occurrence [c5recA, c5recB]
  exact ⟨h1, h3 c5recA (by decide), h5 c5recB (by decide)⟩

/-! ## Claim C1 -/

/-- C1 (counterexample): the claimed priority rule "canonicalId when both
carry one; else matching identifier case-insensitively implies the same
entity" fails on the code: for a record carrying an OpenAlex id and one
without, dedup compares an `oa:` key against a `doi:` key and keeps both
even though the DOIs agree. -/
theorem c1_counterexample :
    ¬ (∀ a b : RecordItem,
        (recOaId a = "" ∨ recOaId b = "") →
        recDoi a ≠ "" →
        pyLower (recDoi a) = pyLower (recDoi b) →
        dedupResolved [a, b] = [a]) := by
  intro h
  have h2 := h { openalex_work := some { openalex_id := "W1", doi := "10.1/x" } }
    { crossref := { doi := "10.1/x" } }
    (Or.inr (by decide)) (by decide) (by decide)
  exact absurd h2 (by decide)

/-- C1 (amended): dedup assigns each record a single key (its own OpenAlex
id when present, else its own DOI lowercased, else normalized title plus
year) and treats two records as the same entity iff the keys agree.  Within
each level the comparison is as claimed (ids lowercased, DOIs
case-insensitive, normalized title+year); across levels — one record
carrying a canonicalId and the other not, or one carrying a DOI and the
other neither id — the records are always distinct entities, even when the
lower-priority fields agree. -/
theorem c1_dedup_identity_amended :
    (∀ a b : RecordItem, dedupResolved [a, b] = [a] ↔ makeKey a = makeKey b) ∧
    (∀ a b : RecordItem, recOaId a ≠ "" → recOaId b ≠ "" →
      (makeKey a = makeKey b ↔ pyLower (recOaId a) = pyLower (recOaId b))) ∧
    (∀ a b : RecordItem, recOaId a = "" → recOaId b = "" →
      recDoi a ≠ "" → recDoi b ≠ "" →
      (makeKey a = makeKey b ↔ pyLower (recDoi a) = pyLower (recDoi b))) ∧
    (∀ a b : RecordItem, recOaId a = "" → recOaId b = "" →
      recDoi a = "" → recDoi b = "" →
      (makeKey a = makeKey b ↔ recTitleYear a = recTitleYear b)) ∧
    (∀ a b : RecordItem, recOaId a ≠ "" → recOaId b = "" →
      makeKey a ≠ makeKey b) ∧
    (∀ a b : RecordItem, recOaId a = "" → recOaId b = "" →
      recDoi a ≠ "" → recDoi b = "" → makeKey a ≠ makeKey b) := by
  refine ⟨dedup_pair, ?_, ?_, ?_, ?_, ?_⟩
  · intro a b ha hb
    rw [makeKey_oa_of a ha, makeKey_oa_of b hb]
    exact ⟨tag_append_inj _ _ _, fun h => by rw [h]⟩
  · intro a b ha hb ha2 hb2
    rw [makeKey_doi_of a ha ha2, makeKey_doi_of b hb hb2]
    exact ⟨tag_append_inj _ _ _, fun h => by rw [h]⟩
  · intro a b ha hb ha2 hb2
    rw [makeKey_ty_of a ha ha2, makeKey_ty_of b hb hb2]
    exact ⟨tag_append_inj _ _ _, fun h => by rw [h]⟩
  · intro a b ha hb
    rw [makeKey_oa_of a ha]
    by_cases hd : recDoi b = ""
    · rw [makeKey_ty_of b hb hd]; exact oa_ne_ty _ _
    · rw [makeKey_doi_of b hb hd]; exact oa_ne_doi _ _
  · intro a b ha hb ha2 hb2
    rw [makeKey_doi_of a ha ha2, makeKey_ty_of b hb hb2]
    exact doi_ne_ty _ _

theorem c1_witness :
    dedupResolved [c1recA, c1recB] = [c1recA] ∧
    makeKey c1recB ≠ makeKey c1recC := by
  obtain ⟨h1, _, _, _, h5, _⟩ := c1_dedup_identity_amended
  refine ⟨(h1 c1recA c1recB).mpr ?_, h5 c1recB c1recC (by decide) (by decide)⟩
  decide

/-! ## Claim C10 -/

/-- C10: the download validator accepts a payload with a non-error status
iff the lowercased declared content type contains `pdf` or the payload is at
least 10 bytes and begins with the `%PDF-` magic bytes (`[37,80,68,70,45]`);
it raises exactly when the HTTP status is an error (4xx/5xx) or both checks
fail.  Concretely, a non-PDF payload served as `application/PDF` is
accepted, and a payload with the magic bytes served as `text/html` is
accepted. -/
theorem c10_download_validation (resp : HttpResp)
    (h1 : 200 ≤ resp.status) (h2 : resp.status < 300) :
    ((validateDownload resp).isOk = true ↔
      (strContains (pyLower resp.ctype) "pdf" = true ∨
        (10 ≤ resp.body.length ∧ resp.body.take 5 = [37, 80, 68, 70, 45]))) ∧
    (∀ r : HttpResp,
      ((validateDownload r).isOk = false ↔
        (400 ≤ r.status ∨
          (strContains (pyLower r.ctype) "pdf" = false ∧
            looksLikePdf r.body = false)))) ∧
    (validateDownload
      { status := 200, body := [104, 105], ctype := "application/PDF",
        finalUrl := "u" }).isOk = true ∧
    (validateDownload
      { status := 200, body := [37, 80, 68, 70, 45, 0, 0, 0, 0, 0],
        ctype := "text/html", finalUrl := "u" }).isOk = true := by
  refine ⟨?_, ?_, by decide, by decide⟩
  · unfold validateDownload
    rw [if_neg (by omega)]
    dsimp only
    split_ifs with hc
    · rw [except_isOk_error]
      simp only [Bool.false_eq_true, false_iff, not_or]
      exact ⟨hc.1, fun hm => hc.2 ((looksLikePdf_iff _).mpr hm)⟩
    · rw [except_isOk_ok]
      simp only [true_iff]
      rcases not_and_or.mp hc with hp | hl
      · exact Or.inl (not_not.mp hp)
      · exact Or.inr ((looksLikePdf_iff _).mp (not_not.mp hl))
  · intro r
    unfold validateDownload
    dsimp only
    split_ifs with hs hc
    · rw [except_isOk_error]
      exact ⟨fun _ => Or.inl hs, fun _ => rfl⟩
    · rw [except_isOk_error]
      refine ⟨fun _ => Or.inr ⟨?_, ?_⟩, fun _ => rfl⟩
      · simpa using hc.1
      · simpa using hc.2
    · rw [except_isOk_ok]
      constructor
      · intro h; simp at h
      · intro hr
        exfalso
        rcases hr with h4 | ⟨ha, hb⟩
        · exact hs h4
        · exact hc ⟨by simp [ha], by simp [hb]⟩

theorem c10_witness :
    ((validateDownload
        { status := 200, body := [], ctype := "text/plain", finalUrl := "u" }).isOk
      = false) ∧
    ((validateDownload
        { status := 200, body := [], ctype := "application/pdf", finalUrl := "u" }).isOk
      = true) := by
  have h := c10_download_validation
    { status := 200, body := [], ctype := "text/plain", finalUrl := "u" }
    (by decide) (by decide)
  refine ⟨(h.2.1 _).mpr (Or.inr ⟨by decide, by decide⟩), ?_⟩
  have h2 := c10_download_validation
    { status := 200, body := [], ctype := "application/pdf", finalUrl := "u" }
    (by decide) (by decide)
  exact h2.1.mpr (Or.inl (by decide))

/-! ## Claim C6 -/

theorem citedByAux_count_le (resp : Nat → CitedPage) (expected : Option Int) :
    ∀ fuel pages out, (citedByAux resp expected fuel pages out).2 ≤ pages + fuel := by
  intro fuel
  induction fuel with
  | zero => intro pages out; simp [citedByAux]
  | succ n ih =>
    intro pages out
    simp only [citedByAux]
    split
    · simp only [Prod.snd]; omega
    · split
      · simp only [Prod.snd]; omega
      · have := ih (pages + 1) (out ++ (resp (pages + 1)).results)
        exact this.trans_eq (by omega)

theorem citedByAux_cap (resp : Nat → CitedPage)
    (h : ∀ n, (resp n).next_cursor.isSome) :
    ∀ fuel pages out, citedByAux resp none fuel pages out =
      (out ++ pageJoinFrom resp pages fuel, pages + fuel) := by
  intro fuel
  induction fuel with
  | zero => intro pages out; simp [citedByAux, pageJoinFrom]
  | succ n ih =>
    intro pages out
    obtain ⟨c, hc⟩ := Option.isSome_iff_exists.mp (h (pages + 1))
    simp only [citedByAux, expectedReached]
    rw [hc]
    simp only [Bool.false_eq_true, if_false]
    rw [ih (pages + 1) (out ++ (resp (pages + 1)).results)]
    simp only [pageJoinFrom, List.append_assoc]
    congr 1
    omega

/-- C6: the cited-by expander fetches at most `MAX_CITEDBY_PAGES = 50`
pages for every response sequence (and so always terminates); with
`expectedTotal = 37` and pages of 10 items it stops after page 4 with 40
items even though every page supplies a next cursor; it stops at the first
page carrying no next cursor; and when every page carries a cursor and no
expected total is known, it stops exactly at the cap and returns the 50
pages' items as an ordinary (partial) result. -/
theorem c6_pagination_termination :
    (∀ (resp : Nat → CitedPage) (expected : Option Int),
      (fetchCitedBy resp expected).2 ≤ MAX_CITEDBY_PAGES) ∧
    (fetchCitedBy
        (fun _ => { results := List.replicate 10 ({} : CitingWork),
                    next_cursor := some "c" })
        (some 37)
      = (List.replicate 40 {}, 4)) ∧
    (∀ (resp : Nat → CitedPage) (expected : Option Int),
      (resp 1).next_cursor = none →
      fetchCitedBy resp expected = ((resp 1).results, 1)) ∧
    (∀ resp : Nat → CitedPage, (∀ n, (resp n).next_cursor.isSome) →
      fetchCitedBy resp none =
        (pageJoinFrom resp 0 MAX_CITEDBY_PAGES, MAX_CITEDBY_PAGES)) := by
  refine ⟨?_, by decide, ?_, ?_⟩
  · intro resp expected
    have := citedByAux_count_le resp expected MAX_CITEDBY_PAGES 0 []
    simpa [fetchCitedBy] using this
  · intro resp expected h
    show citedByAux resp expected (49 + 1) 0 [] = ((resp 1).results, 1)
    simp only [citedByAux, List.nil_append, Nat.zero_add, h]
    split <;> rfl
  · intro resp h
    have := citedByAux_cap resp h MAX_CITEDBY_PAGES 0 []
    simpa [fetchCitedBy] using this

theorem c6_witness :
    fetchCitedBy (fun _ => { results := [({} : CitingWork)], next_cursor := none })
        none = ([{}], 1) ∧
    (fetchCitedBy (fun _ => { results := [({} : CitingWork)], next_cursor := some "x" })
        none).2 = 50 := by
  constructor
  · exact c6_pagination_termination.2.2.1 _ none rfl
  · have h := c6_pagination_termination.2.2.2
      (fun _ => { results := [({} : CitingWork)], next_cursor := some "x" })
      (fun _ => rfl)
    rw [h]
    rfl

/-! ## Claim C8 -/

/-- C8: whenever harvesting yields at least one candidate, exactly one
candidate is chosen; it belongs to the recency-filtered subset (years within
the last 10 of the current year) when that subset is non-empty and to the
full pool otherwise — for every drawn random index, which is an oracle
callers cannot rely on.  With no override, step 7's choice is exactly this
draw over the harvested candidates. -/
theorem c8_random_recent_selection :
    (∀ (curYear : Int) (randIdx : Nat) (cands : List Cand),
      cands ≠ [] →
      ∃ c, chooseCandidate curYear randIdx cands = some c ∧
        ((cands.filter fun d => isRecent curYear d.year) ≠ [] →
          c ∈ cands.filter fun d => isRecent curYear d.year) ∧
        ((cands.filter fun d => isRecent curYear d.year) = [] → c ∈ cands)) ∧
    (∀ (cfg : Config) (o : Oracle) (rs : List RecordItem),
      cfg.naa_step7_override_pdf = none →
      step7Choose cfg o rs =
        chooseCandidate o.curYear o.randIdx (harvestPdfCandidates o.headGet rs)) := by
  constructor
  · intro curYear randIdx cands hne
    have hpool : candidatePool curYear cands ≠ [] := by
      unfold candidatePool
      dsimp only
      split_ifs with h
      · exact h
      · exact hne
    obtain ⟨c, hc⟩ : ∃ c, chooseCandidate curYear randIdx cands = some c := by
      unfold chooseCandidate
      rw [dif_neg hpool]
      exact ⟨_, rfl⟩
    have hmem := chooseCandidate_mem_pool curYear randIdx cands c hc
    refine ⟨c, hc, ?_, ?_⟩
    · intro hrec
      unfold candidatePool at hmem
      dsimp only at hmem
      rw [if_pos hrec] at hmem
      exact hmem
    · intro hrec
      unfold candidatePool at hmem
      dsimp only at hmem
      rw [if_neg (by simp [hrec])] at hmem
      exact hmem
  · intro cfg o rs h
    unfold step7Choose
    rw [h]

theorem c8_witness :
    ∃ c, chooseCandidate 2026 5 [{ year := "2020" }, { year := "1990" }] = some c ∧
      (([{ year := "2020" }, { year := "1990" }].filter
          fun d : Cand => isRecent 2026 d.year) ≠ [] →
        c ∈ [{ year := "2020" }, { year := "1990" }].filter
          fun d : Cand => isRecent 2026 d.year) ∧
      (([{ year := "2020" }, { year := "1990" }].filter
          fun d : Cand => isRecent 2026 d.year) = [] →
        c ∈ [({ year := "2020" } : Cand), { year := "1990" }]) :=
  c8_random_recent_selection.1 2026 5 [{ year := "2020" }, { year := "1990" }]
    (by decide)

theorem arxiv_url_ne_empty (t : String) :
    "https://arxiv.org/pdf/" ++ t ++ ".pdf" ≠ "" := by
  intro hh
  have h4 := congrArg String.data hh
  simp [String.data_append] at h4

/-! ## Claim C7 -/

set_option maxHeartbeats 1600000 in
/-- C7: candidate harvesting stops at the first successful source.  When the
record carries no open-access PDF URL and its landing URL transforms via the
arXiv abstract-to-PDF rule, the harvested URL is the transformed landing URL
and content negotiation is never attempted (the negotiation log is empty and
the result does not depend on the negotiation oracle); any negotiation
attempt implies steps (1) and (2) yielded nothing, and negotiation against
the landing URL implies the identifier negotiation also yielded nothing. -/
theorem c7_fallback_order :
    (∀ (headGet : HeadGet) (item : RecordItem),
      recPdf0 item = "" →
      strContains (pyLower (pyStrip (recLanding item))) "arxiv.org/abs/" = true →
      strEndsWith (pyLower (pyStrip (recLanding item))) ".pdf" = false →
      candidateFromRecord headGet item =
        (some { title := if recTitle item ≠ "" then recTitle item else "network_pdf"
                pdf_url := "https://arxiv.org/pdf/" ++
                  stripSlashes (beforeFirst
                    (afterFirst (pyStrip (recLanding item)) "/abs/") "?") ++ ".pdf"
                year := pyStrip (wOr item.openalex_work).year }, [])) ∧
    (∀ (headGet : HeadGet) (item : RecordItem),
      (candidateFromRecord headGet item).2 ≠ [] →
      recPdf0 item = "" ∧ ensurePdfUrl (recLanding item) = "") ∧
    (∀ (headGet : HeadGet) (item : RecordItem),
      (candidateFromRecord headGet item).2.length = 2 →
      resolvePdfViaNegotiation headGet (recDoi item) = "") := by
  refine ⟨?_, ?_, ?_⟩
  · intro headGet item h1 h2 h3
    have hu : pyStrip (recLanding item) ≠ "" := by
      intro hu
      rw [hu] at h2
      exact absurd h2 (by decide)
    have hens : ensurePdfUrl (recLanding item) =
        "https://arxiv.org/pdf/" ++
          stripSlashes (beforeFirst
            (afterFirst (pyStrip (recLanding item)) "/abs/") "?") ++ ".pdf" := by
      unfold ensurePdfUrl
      dsimp only
      rw [if_neg hu, if_neg (by simp [h3]), if_pos h2]
    have hne : ensurePdfUrl (recLanding item) ≠ "" := by
      rw [hens]
      exact arxiv_url_ne_empty _
    unfold candidateFromRecord
    dsimp only
    rw [if_neg (by simp [h1]), if_pos hne, hens]
  · intro headGet item hlog
    constructor
    · by_contra h0
      apply hlog
      unfold candidateFromRecord
      dsimp only
      rw [if_pos h0]
    · by_contra h1
      apply hlog
      unfold candidateFromRecord
      dsimp only
      by_cases h0 : recPdf0 item ≠ ""
      · rw [if_pos h0]
      · rw [if_neg h0, if_pos h1]
  · intro headGet item hlen
    unfold candidateFromRecord at hlen
    dsimp only at hlen
    by_cases h0 : recPdf0 item ≠ ""
    · rw [if_pos h0] at hlen; simp at hlen
    · rw [if_neg h0] at hlen
      by_cases h1 : ensurePdfUrl (recLanding item) ≠ ""
      · rw [if_pos h1] at hlen; simp at hlen
      · rw [if_neg h1] at hlen
        by_cases h2 : resolvePdfViaNegotiation headGet (recDoi item) ≠ ""
        · rw [if_pos h2] at hlen; simp at hlen
        · exact not_not.mp h2

theorem c7_witness :
    (candidateFromRecord c7headGet c7item).2 = [] ∧
    (candidateFromRecord c7headGet c7item).1 =
      some { title := "T", pdf_url := "https://arxiv.org/pdf/2101.00001.pdf",
             year := "2021" } := by
  have h := c7_fallback_order.1 c7headGet c7item (by decide) (by decide) (by decide)
  rw [h]
  exact ⟨rfl, by decide⟩

/-! ## Running `naa_node` to completion -/

/-- When the prechecks and the four validated steps pass, `naa_node` runs the
whole pipeline and returns the success assembly; no failure exit exists past
the step-4 check. -/
theorem naa_run_success (st : StateM) (cfg : Config) (o : Oracle)
    (refsRaw : List JVal) (bobj : BaselineObj) (iobj : InnovObj)
    (h1 : st.idcaStatus = "FINISHED")
    (h2 : tarOf st ≠ "")
    (h3 : cfg.hasClient = true)
    (h4 : o.step1 = .ok refsRaw)
    (h5 : refsOf refsRaw ≠ [])
    (h6 : o.crossrefExc = none)
    (h7 : o.baseline = .ok bobj)
    (h8 : (filterStrs bobj.baseline_top2).length = 2)
    (h9 : o.innovation = .ok iobj)
    (h10 : (filterStrs iobj.innovation_top2).length = 2) :
    naa_node st (some cfg) o =
      successPart st cfg o (refsOf refsRaw) (filterStrs bobj.baseline_top2)
        (filterStrs iobj.innovation_top2) := by
  unfold naa_node
  rw [if_neg (by simp [h1]), if_neg h2]
  dsimp only
  rw [if_neg (by simp [h3]), h4]
  dsimp only
  rw [if_neg h5, h6]
  dsimp only
  rw [h7]
  dsimp only
  rw [if_neg (by simp [h8]), h9]
  dsimp only
  rw [if_neg (by simp [h10])]

/-! ## Claim C9 -/

/-- C9: every return of `naa_node` carries status `"FAILED"` or
`"FINISHED"`; a failure return always carries the fully shaped empty
artifact (empty core subject, empty reference and cited-by lists, no step-7
entry) together with the upstream summary and document URI, and its
internals hold exactly the failure message. -/
theorem c9_status_and_failure_shape (st : StateM) (config : Option Config)
    (o : Oracle) :
    ((naa_node st config o).status = "FAILED" ∨
      (naa_node st config o).status = "FINISHED") ∧
    ((naa_node st config o).status = "FAILED" →
      (naa_node st config o).artifacts =
        { core_subject := "", reference_urls := [], top2_cited_by := [],
          input_summary := st.idca.summary, doc_gcs_uri := tarOf st,
          generated_at := o.now, temp_step7 := none } ∧
      ∃ note, (naa_node st config o).internals =
        .failed (naa_node st config o).message note) := by
  unfold naa_node
  dsimp only
  repeat' split
  all_goals
    first
    | exact ⟨Or.inl rfl, fun _ => ⟨rfl, _, rfl⟩⟩
    | exact ⟨Or.inr rfl, fun h => absurd h (by simp [successPart, failR])⟩

theorem c9_witness :
    (naa_node c9st none c2o).status = "FAILED" ∧
    (naa_node c9st none c2o).artifacts =
      { core_subject := "", reference_urls := [], top2_cited_by := [],
        input_summary := c9st.idca.summary, doc_gcs_uri := tarOf c9st,
        generated_at := c2o.now, temp_step7 := none } ∧
    ∃ note, (naa_node c9st none c2o).internals =
      .failed (naa_node c9st none c2o).message note := by
  have h := c9_status_and_failure_shape c9st none c2o
  have hst : (naa_node c9st none c2o).status = "FAILED" := by decide
  exact ⟨hst, h.2 hst⟩

/-! ## Claim C2 -/

/-- C2 (counterexample): the baseline ranking call returns `"x"` and `"y"`,
neither of which occurs in the reference list `["a"]`, yet the run completes
with status `"FINISHED"` — no `ranking-malformed` failure occurs, because the
code checks only the cardinality, never verbatim membership. -/
theorem c2_counterexample :
    c2o.baseline = .ok { baseline_top2 := [.jstr "x", .jstr "y"] } ∧
    refsOf [JVal.jstr "a"] = ["a"] ∧
    "x" ∉ (["a"] : List String) ∧ "y" ∉ (["a"] : List String) ∧
    (naa_node c2st (some c2cfg) c2o).status = "FINISHED" := by
  refine ⟨rfl, by decide, by decide, by decide, by decide⟩

/-- C2 (amended): each ranking call is validated only for cardinality: the
returned array is filtered to non-empty strings and must contain exactly
two; a wrong count fails the stage immediately, naming the stage and
carrying the raw ranking object, with no retry (the call is consulted
once); but verbatim membership in the input list is not checked, and a
run whose ranking output is disjoint from the reference list still
finishes. -/
theorem c2_ranking_cardinality_only_amended :
    (∀ (st : StateM) (cfg : Config) (o : Oracle) (refsRaw : List JVal)
        (bobj : BaselineObj),
      st.idcaStatus = "FINISHED" → tarOf st ≠ "" → cfg.hasClient = true →
      o.step1 = .ok refsRaw → refsOf refsRaw ≠ [] → o.crossrefExc = none →
      o.baseline = .ok bobj → (filterStrs bobj.baseline_top2).length ≠ 2 →
      naa_node st (some cfg) o =
        failR "[NAA] step 3 did not return exactly two baseline items" st
          (some { stage := "step3", rankB := some bobj }) o.now) ∧
    (∀ (st : StateM) (cfg : Config) (o : Oracle) (refsRaw : List JVal)
        (bobj : BaselineObj) (iobj : InnovObj),
      st.idcaStatus = "FINISHED" → tarOf st ≠ "" → cfg.hasClient = true →
      o.step1 = .ok refsRaw → refsOf refsRaw ≠ [] → o.crossrefExc = none →
      o.baseline = .ok bobj → (filterStrs bobj.baseline_top2).length = 2 →
      o.innovation = .ok iobj → (filterStrs iobj.innovation_top2).length ≠ 2 →
      naa_node st (some cfg) o =
        failR "[NAA] step 4 did not return exactly two innovation items" st
          (some { stage := "step4", rankI := some iobj }) o.now) ∧
    (∀ (st : StateM) (cfg : Config) (o : Oracle) (refsRaw : List JVal)
        (bobj : BaselineObj) (iobj : InnovObj),
      st.idcaStatus = "FINISHED" → tarOf st ≠ "" → cfg.hasClient = true →
      o.step1 = .ok refsRaw → refsOf refsRaw ≠ [] → o.crossrefExc = none →
      o.baseline = .ok bobj → (filterStrs bobj.baseline_top2).length = 2 →
      o.innovation = .ok iobj → (filterStrs iobj.innovation_top2).length = 2 →
      (naa_node st (some cfg) o).status = "FINISHED") := by
  refine ⟨?_, ?_, ?_⟩
  · intro st cfg o refsRaw bobj h1 h2 h3 h4 h5 h6 h7 h8
    unfold naa_node
    rw [if_neg (by simp [h1]), if_neg h2]
    dsimp only
    rw [if_neg (by simp [h3]), h4]
    dsimp only
    rw [if_neg h5, h6]
    dsimp only
    rw [h7]
    dsimp only
    rw [if_pos h8]
  · intro st cfg o refsRaw bobj iobj h1 h2 h3 h4 h5 h6 h7 h8 h9 h10
    unfold naa_node
    rw [if_neg (by simp [h1]), if_neg h2]
    dsimp only
    rw [if_neg (by simp [h3]), h4]
    dsimp only
    rw [if_neg h5, h6]
    dsimp only
    rw [h7]
    dsimp only
    rw [if_neg (by simp [h8]), h9]
    dsimp only
    rw [if_pos h10]
  · intro st cfg o refsRaw bobj iobj h1 h2 h3 h4 h5 h6 h7 h8 h9 h10
    rw [naa_run_success st cfg o refsRaw bobj iobj h1 h2 h3 h4 h5 h6 h7 h8 h9 h10]
    rfl

theorem c2_witness :
    naa_node c2st (some c2cfg)
        { c2o with baseline := .ok { baseline_top2 := [.jstr "x"] } } =
      failR "[NAA] step 3 did not return exactly two baseline items" c2st
        (some { stage := "step3", rankB := some { baseline_top2 := [.jstr "x"] } })
        ({ c2o with baseline := .ok { baseline_top2 := [.jstr "x"] } } : Oracle).now := by
  exact c2_ranking_cardinality_only_amended.1 c2st c2cfg
    { c2o with baseline := .ok { baseline_top2 := [.jstr "x"] } }
    [JVal.jstr "a"] { baseline_top2 := [.jstr "x"] }
    (by decide) (by decide) (by decide) rfl (by decide) rfl rfl (by decide)

/-! ## Claim C3 -/

/-- C3 (counterexample): the downloaded candidate fails the magic-byte and
content-type validation, yet the invocation returns status `"FINISHED"`
(a success outcome), with the failure merely recorded as `download_error`
inside the step-7 result. -/
theorem c3_counterexample :
    downloadPdfValidated c3o.fetchPdf "http://x/p.pdf" =
      .error "Downloaded content is not a valid PDF." ∧
    (naa_node c3st (some c3cfg) c3o).status = "FINISHED" ∧
    (naa_node c3st (some c3cfg) c3o).artifacts.temp_step7 =
      some (.unclear (some "download_error: Downloaded content is not a valid PDF.")
        none none) := by
  refine ⟨rfl, by decide, by decide⟩

/-- C3 (amended): when the chosen candidate's download fails the
magic-byte/content-type validation in GCS mode, the step-7 result degrades
to `{"status": "unclear", "reason": download_error...}` — the upload and
comparison never produce a result — and the invocation still returns a
`"FINISHED"` outcome carrying that step-7 result; it does not terminate
with a failed `PipelineOutcome`. -/
theorem c3_download_invalid_amended :
    (∀ (cfg : Config) (o : Oracle) (rs : List RecordItem) (c : Cand) (e : String),
      cfg.naa_step7_remote = false →
      step7Choose cfg o rs = some c →
      downloadPdfValidated o.fetchPdf c.pdf_url = .error e →
      step7Compute cfg o rs = .unclear (some ("download_error: " ++ e)) none none) ∧
    (∀ (st : StateM) (cfg : Config) (o : Oracle) (refsRaw : List JVal)
        (bobj : BaselineObj) (iobj : InnovObj),
      st.idcaStatus = "FINISHED" → tarOf st ≠ "" → cfg.hasClient = true →
      o.step1 = .ok refsRaw → refsOf refsRaw ≠ [] → o.crossrefExc = none →
      o.baseline = .ok bobj → (filterStrs bobj.baseline_top2).length = 2 →
      o.innovation = .ok iobj → (filterStrs iobj.innovation_top2).length = 2 →
      (naa_node st (some cfg) o).status = "FINISHED" ∧
      (naa_node st (some cfg) o).artifacts.temp_step7 =
        some (step7Compute cfg o
          (step6Enrich o (dedupResolved (step5Resolve o (refsOf refsRaw)
            (filterStrs bobj.baseline_top2) (filterStrs iobj.innovation_top2)))))) := by
  constructor
  · intro cfg o rs c e hrem hch hdl
    unfold step7Compute
    rw [hch]
    dsimp only
    rw [if_neg (by simp [hrem]), hdl]
  · intro st cfg o refsRaw bobj iobj h1 h2 h3 h4 h5 h6 h7 h8 h9 h10
    rw [naa_run_success st cfg o refsRaw bobj iobj h1 h2 h3 h4 h5 h6 h7 h8 h9 h10]
    exact ⟨rfl, rfl⟩

theorem c3_witness :
    step7Compute c3cfg c3o [] =
      .unclear (some "download_error: Downloaded content is not a valid PDF.")
        none none ∧
    (naa_node c3st (some c3cfg) c3o).status = "FINISHED" := by
  constructor
  · exact c3_download_invalid_amended.1 c3cfg c3o []
      { title := "t", pdf_url := "http://x/p.pdf", year := "" }
      "Downloaded content is not a valid PDF." rfl (by decide) rfl
  · exact (c3_download_invalid_amended.2 c3st c3cfg c3o [JVal.jstr "a"]
      { baseline_top2 := [.jstr "a", .jstr "a"] }
      { innovation_top2 := [.jstr "a", .jstr "a"] }
      (by decide) (by decide) (by decide) rfl (by decide) rfl rfl (by decide)
      rfl (by decide)).1

/-! ## Claim C4 -/

/-- C4 (counterexample): harvesting over the resolved references yields zero
usable URLs and no override is configured, yet the invocation returns status
`"FINISHED"` with the untouched `{"status": "unclear"}` step-7 result — not
a `no-candidates` stage failure. -/
theorem c4_counterexample :
    harvestPdfCandidates c4o.headGet
      (step6Enrich c4o (dedupResolved
        (step5Resolve c4o (refsOf [JVal.jstr "a"]) ["a", "a"] ["a", "a"]))) = [] ∧
    c4cfg.naa_step7_override_pdf = none ∧
    (naa_node c4st (some c4cfg) c4o).status = "FINISHED" ∧
    (naa_node c4st (some c4cfg) c4o).artifacts.temp_step7 =
      some (.unclear none none none) := by
  refine ⟨by decide, rfl, by decide, by decide⟩

/-- C4 (amended): with no override and zero harvested candidates, step 7
skips the comparison, leaving the initial `{"status": "unclear"}` result,
and the invocation still returns a `"FINISHED"` outcome carrying it; no
`no-candidates` failure exists. -/
theorem c4_no_candidates_amended :
    (∀ (cfg : Config) (o : Oracle) (rs : List RecordItem),
      cfg.naa_step7_override_pdf = none →
      harvestPdfCandidates o.headGet rs = [] →
      step7Choose cfg o rs = none ∧
      step7Compute cfg o rs = .unclear none none none) ∧
    (∀ (st : StateM) (cfg : Config) (o : Oracle) (refsRaw : List JVal)
        (bobj : BaselineObj) (iobj : InnovObj),
      st.idcaStatus = "FINISHED" → tarOf st ≠ "" → cfg.hasClient = true →
      o.step1 = .ok refsRaw → refsOf refsRaw ≠ [] → o.crossrefExc = none →
      o.baseline = .ok bobj → (filterStrs bobj.baseline_top2).length = 2 →
      o.innovation = .ok iobj → (filterStrs iobj.innovation_top2).length = 2 →
      (naa_node st (some cfg) o).status = "FINISHED" ∧
      (naa_node st (some cfg) o).artifacts.temp_step7 =
        some (step7Compute cfg o
          (step6Enrich o (dedupResolved (step5Resolve o (refsOf refsRaw)
            (filterStrs bobj.baseline_top2) (filterStrs iobj.innovation_top2)))))) := by
  constructor
  · intro cfg o rs hov hharv
    have hch : step7Choose cfg o rs = none := by
      unfold step7Choose
      rw [hov, hharv]
      simp [chooseCandidate, candidatePool]
    refine ⟨hch, ?_⟩
    unfold step7Compute
    rw [hch]
  · intro st cfg o refsRaw bobj iobj h1 h2 h3 h4 h5 h6 h7 h8 h9 h10
    rw [naa_run_success st cfg o refsRaw bobj iobj h1 h2 h3 h4 h5 h6 h7 h8 h9 h10]
    exact ⟨rfl, rfl⟩

theorem c4_witness :
    step7Choose c4cfg c4o [] = none ∧
    step7Compute c4cfg c4o [] = .unclear none none none ∧
    (naa_node c4st (some c4cfg) c4o).status = "FINISHED" := by
  have h := c4_no_candidates_amended.1 c4cfg c4o [] rfl (by decide)
  refine ⟨h.1, h.2, ?_⟩
  exact (c4_no_candidates_amended.2 c4st c4cfg c4o [JVal.jstr "a"]
    { baseline_top2 := [.jstr "a", .jstr "a"] }
    { innovation_top2 := [.jstr "a", .jstr "a"] }
    (by decide) (by decide) (by decide) rfl (by decide) rfl rfl (by decide)
    rfl (by decide)).1

end Naa
